import Mathlib

/-!
Shallow embedding of the GAT-Hacks backend core: the viva (assessment)
session state machine and unlock cascade from `backend/main.py`, and the
calendar allocator / replanner from `backend/agents/scheduler_agent.py`
(data types from `backend/models.py`).

Conventions of the embedding:
* Calendar dates are embedded as natural-number day indices; adding one day
  adds one to the index, and the weekday of day `d` is `d % 7` with
  `0 = Monday`, matching Python's `date.weekday()` under `+ timedelta(days=k)`.
* Calls to the external language-model "oracle" (question, reply and
  score-update generation, remedial-focus text, final feedback) are passed in
  as parameters: the embedded functions describe what the handlers do with
  the oracle's output.
* Python dict-based session/roadmap records keep their string-valued
  `status` fields; Pydantic enums from `models.py` become inductive types.
* Fallible operations (`list.index` raising `ValueError`, missing modules,
  FastAPI error responses) are embedded with `Option`/`Except`.
-/

namespace GatHacks

/-! ### Roadmap modules and the unlock cascade (`main.py`, `complete_viva`) -/

/-- A module record of a user roadmap as read and written by `complete_viva`
(`main.py` lines 1008-1049): a dict with at least `title`, `status` and
`viva_score` keys; only these three are touched by the cascade. -/
structure RoadmapModule where
  title : String
  status : String
  viva_score : Option Int
deriving DecidableEq, Repr

instance : Inhabited RoadmapModule := ⟨⟨"", "", none⟩⟩

/-- The module-list update performed by `complete_viva` (`main.py` 1008-1049):
find the first module whose `title` equals `module_id` (`none` = HTTP 404 when
absent), record `viva_score`, then on a passing score (`final_score >= 70`)
mark it `completed` and the next module in list order `active`; on a failing
score mark it `pending`. -/
def complete_viva_modules : List RoadmapModule → String → Int → Option (List RoadmapModule)
  | [], _, _ => none
  | m :: rest, module_id, final_score =>
    if m.title = module_id then
      let m0 : RoadmapModule := { m with viva_score := some final_score }
      if 70 ≤ final_score then
        let m1 : RoadmapModule := { m0 with status := "completed" }
        match rest with
        | [] => some [m1]
        | n :: rest2 => some (m1 :: { n with status := "active" } :: rest2)
      else
        some ({ m0 with status := "pending" } :: rest)
    else
      match complete_viva_modules rest module_id final_score with
      | none => none
      | some rest' => some (m :: rest')

/-- Number of modules in the roadmap with the unlocked (`"active"`) status. -/
def countActive (mods : List RoadmapModule) : Nat :=
  mods.countP (fun m => m.status == "active")

/-- Precondition for the unlock invariant: every `"active"` module is the
module `complete_viva` selects, i.e. the first module whose title matches. -/
def only_first_match_active : List RoadmapModule → String → Bool
  | [], _ => true
  | m :: rest, t =>
    if m.title = t then rest.all (fun x => x.status != "active")
    else (m.status != "active") && only_first_match_active rest t

/-! ### Viva session state machine (`main.py`, `/viva/start` and `/viva/interact`) -/

/-- The session record built by `start_viva` and mutated by `interact_viva`
(`main.py` 527-547 and 654-723).  A transcript entry is a `(role, content)`
pair; the `timestamp` strings are dropped as pure metadata. -/
structure VivaSessionState where
  module_id : String
  module_title : String
  transcript : List (String × String)
  current_score : Int
  status : String
  question_count : Nat
deriving DecidableEq, Repr

/-- Session creation in `start_viva` (`main.py` 527-547), given the oracle's
combined greeting-and-question text. -/
def start_viva_session (module_id module_title greeting_and_question : String) :
    VivaSessionState :=
  { module_id := module_id
    module_title := module_title
    transcript := [("interviewer", greeting_and_question)]
    current_score := 50
    status := "active"
    question_count := 1 }

/-- One interaction of `interact_viva` on an (already-fetched, active) session
(`main.py` 654-723): append the user turn, add the oracle's `score_update` to
`current_score` and clamp to `[0, 100]`, append the interviewer reply,
increment `question_count`, and when the count has reached 5 conclude the
session: `passed` iff the running score is `>= 70`, else `failed`, with the
final feedback appended to the transcript. -/
def interact_viva_step (s : VivaSessionState)
    (user_input response_text final_feedback : String) (score_update : Int) :
    VivaSessionState :=
  let t1 := s.transcript ++ [("user", user_input)]
  let score1 := max 0 (min 100 (s.current_score + score_update))
  let t2 := t1 ++ [("interviewer", response_text)]
  let qc := s.question_count + 1
  if 5 ≤ qc then
    { s with
      transcript := t2 ++ [("interviewer", final_feedback)]
      current_score := score1
      status := if 70 ≤ score1 then "passed" else "failed"
      question_count := qc }
  else
    { s with transcript := t2, current_score := score1, question_count := qc }

/-- Iterating `interact_viva_step` over a list of turns, each turn carrying
the user input, the oracle reply, the feedback text and the score update. -/
def run_viva (s : VivaSessionState) : List (String × String × String × Int) → VivaSessionState
  | [] => s
  | (ui, rt, ff, upd) :: rest => run_viva (interact_viva_step s ui rt ff upd) rest

/-- Errors surfaced by the `/viva/interact` endpoint before any mutation. -/
inductive VivaError where
  | notFound
  | alreadyConcluded (status : String)
deriving DecidableEq, Repr

/-- `get_session`: lookup in the session store (`viva_database.py`). -/
def get_session : List (String × VivaSessionState) → String → Option VivaSessionState
  | [], _ => none
  | (k, v) :: rest, sid => if k = sid then some v else get_session rest sid

/-- `update_session`: replace the stored session under its id. -/
def update_session : List (String × VivaSessionState) → String → VivaSessionState →
    List (String × VivaSessionState)
  | [], _, _ => []
  | (k, v) :: rest, sid, s =>
    if k = sid then (k, s) :: rest else (k, v) :: update_session rest sid s

/-- The `/viva/interact` endpoint around the step (`main.py` 618-723): a
missing session is a 404, a session whose status is no longer `"active"` is
rejected with HTTP 400 "Session is already {status}" before anything is
written; otherwise the step runs and the store is updated.  The first
component of the result is the session store after the call. -/
def interact_viva_endpoint (store : List (String × VivaSessionState))
    (session_id user_input response_text final_feedback : String)
    (score_update : Int) :
    List (String × VivaSessionState) × Except VivaError VivaSessionState :=
  match get_session store session_id with
  | none => (store, Except.error VivaError.notFound)
  | some s =>
    if s.status ≠ "active" then
      (store, Except.error (VivaError.alreadyConcluded s.status))
    else
      let s' := interact_viva_step s user_input response_text final_feedback score_update
      (update_session store session_id s', Except.ok s')

/-! ### Simplified text-only viva chat (`main.py`, `/viva/chat`) -/

/-- A `/viva/chat` session as stored in the module-level `viva_sessions` map
(`main.py` 791-792 and 813-819). -/
structure ChatSession where
  history : List (String × String)
  scores : List Int
  question_count : Nat
deriving DecidableEq, Repr

/-- The fields of the `VivaResponse` returned by `/viva/chat` that depend on
the session state (`models.py` 76-85). -/
structure ChatResponse where
  reply : String
  next_question : String
  score : Int
  cumulative_score : Int
  question_count : Nat
  is_complete : Bool
deriving DecidableEq, Repr

/-- Session creation in `start_simple_viva` (`main.py` 945-953). -/
def start_simple_viva_session (first_question : String) : ChatSession :=
  { history := [("interviewer", first_question)], scores := [], question_count := 0 }

/-- The reply / next-question split of `viva_chat` (`main.py` 837-852):
`response_text.split("?", 1)`, with a `"."`-split fallback. -/
def split_reply (response_text : String) : String × String :=
  let parts := response_text.splitOn "?"
  if 2 ≤ parts.length then
    let reply := (parts.headD "").trim ++ "?"
    let next_question := (String.intercalate "?" parts.tail).trim
    (reply, if next_question = "" then "Continue." else next_question)
  else
    let parts2 := response_text.splitOn "."
    if 2 ≤ parts2.length then
      ((parts2.headD "").trim ++ ".", (String.intercalate "." parts2.tail).trim)
    else
      (response_text, "")

/-- One `/viva/chat` turn on an existing session (`main.py` 821-906), given
the oracle's `response_text` and `score_update`.  A negative `score_update`
is the oracle's no-grade signal: the per-turn score is reported as 0 and
neither `scores` nor `question_count` changes; otherwise the per-turn score
is recorded and the counter increments.  `cumulative_score` is
`int(sum(scores) / len(scores))` over the recorded scores — truncating
division, `Int.tdiv` — or 0 when none have been recorded. -/
def viva_chat_step (sess : ChatSession) (user_text response_text : String)
    (score_update : Int) : ChatSession × ChatResponse :=
  let history1 := sess.history ++ [("user", user_text)]
  let rq := split_reply response_text
  let score : Int := if 0 ≤ score_update then score_update else 0
  let full_response := (rq.1 ++ " " ++ rq.2).trim
  let history2 := history1 ++ [("assistant", full_response)]
  let scores' := if 0 ≤ score_update then sess.scores ++ [score] else sess.scores
  let qc' := if 0 ≤ score_update then sess.question_count + 1 else sess.question_count
  let cumulative : Int :=
    if 0 < scores'.length then scores'.sum.tdiv (scores'.length : Int) else 0
  ({ history := history2, scores := scores', question_count := qc' },
   { reply := rq.1
     next_question := rq.2
     score := score
     cumulative_score := cumulative
     question_count := qc'
     is_complete := 5 ≤ qc' })

/-! ### Scheduler data model (`models.py` 139-177) -/

inductive ActivityType where
  | learning
  | coding_practice
  | viva
  | remedial
deriving DecidableEq, Repr

structure TimeSlot where
  day : String
  start_time : String
  duration_minutes : Nat
  activity_type : ActivityType
deriving DecidableEq, Repr

inductive ModuleStatusScheduler where
  | locked
  | unlocked
  | completed
  | failed
deriving DecidableEq, Repr

structure LearningModuleScheduler where
  id : String
  title : String
  prerequisites : List String
  estimated_hours : Nat
  status : ModuleStatusScheduler
  viva_passed : Bool
deriving DecidableEq, Repr

instance : Inhabited LearningModuleScheduler :=
  ⟨⟨"", "", [], 0, ModuleStatusScheduler.locked, false⟩⟩

/-- `UserSchedule` (`models.py` 169-177); `start_date` is a day index. -/
structure UserSchedule where
  user_id : String
  goal : String
  start_date : Nat
  daily_commitment_hours : Nat
  preferred_language : String
  modules : List LearningModuleScheduler
  calendar : List TimeSlot
deriving DecidableEq, Repr

/-- The weekday-name table of `scheduler_agent.py` (lines 178, 277, 345). -/
def days_of_week : List String :=
  ["Monday", "Tuesday", "Wednesday", "Thursday", "Friday", "Saturday", "Sunday"]

/-- `days_of_week[d.weekday()]` for the day with index `d`. -/
def dayName (d : Nat) : String := days_of_week.getD (d % 7) ""

/-! ### Calendar allocator (`scheduler_agent.py`, `_create_calendar_from_modules`) -/

/-- The inner study-slot loop of `_create_calendar_from_modules`
(`scheduler_agent.py` 193-208): one `learning` slot per day for
`days_needed` days, each of `min(daily_minutes, remaining_minutes)` minutes. -/
def moduleStudySlots (total_minutes daily_minutes current_date days_needed : Nat) :
    List TimeSlot :=
  (List.range days_needed).map (fun day_offset =>
    { day := dayName (current_date + day_offset)
      start_time := "18:00"
      duration_minutes := min daily_minutes (total_minutes - day_offset * daily_minutes)
      activity_type := ActivityType.learning })

/-- `_create_calendar_from_modules` (`scheduler_agent.py` 159-237): for each
module in order, skipping completed ones, emit the study slots, a 60-minute
`coding_practice` slot the day after the last study day and a 30-minute
`viva` slot the day after that, then move the cursor to the day after the
viva slot. -/
def create_calendar_from_modules :
    List LearningModuleScheduler → Nat → Nat → List TimeSlot
  | [], _, _ => []
  | m :: rest, time_per_day, current_date =>
    if m.status = ModuleStatusScheduler.completed then
      create_calendar_from_modules rest time_per_day current_date
    else
      let daily_minutes := time_per_day * 60
      let total_minutes := m.estimated_hours * 60
      let days_needed := (total_minutes + daily_minutes - 1) / daily_minutes
      let practice_date := current_date + days_needed
      let practice_slot : TimeSlot :=
        { day := dayName practice_date
          start_time := "18:00"
          duration_minutes := 60
          activity_type := ActivityType.coding_practice }
      let viva_date := practice_date + 1
      let viva_slot : TimeSlot :=
        { day := dayName viva_date
          start_time := "18:00"
          duration_minutes := 30
          activity_type := ActivityType.viva }
      moduleStudySlots total_minutes daily_minutes current_date days_needed
        ++ [practice_slot, viva_slot]
        ++ create_calendar_from_modules rest time_per_day (viva_date + 1)

/-- The allocator as the specification states it, for comparison with
`create_calendar_from_modules`: for each module, in order, skipping any
already completed, emit one study slot per day for
`days_needed = ceil(total_minutes / daily_minutes)` days — the final day's
duration is the remainder `total_minutes - (days_needed - 1) * daily_minutes`,
all others are `daily_minutes` — then one 60-minute practice slot the day
after the last study day and one 30-minute assessment slot the day after the
practice day, then advance the cursor to the day after the assessment slot. -/
def allocate_spec : List LearningModuleScheduler → Nat → Nat → List TimeSlot
  | [], _, _ => []
  | m :: rest, daily_hours, cursor =>
    if m.status = ModuleStatusScheduler.completed then
      allocate_spec rest daily_hours cursor
    else
      let daily_minutes := daily_hours * 60
      let total_minutes := m.estimated_hours * 60
      let days_needed := (total_minutes + daily_minutes - 1) / daily_minutes
      ((List.range days_needed).map (fun k =>
        { day := dayName (cursor + k)
          start_time := "18:00"
          duration_minutes :=
            if k + 1 = days_needed then
              total_minutes - (days_needed - 1) * daily_minutes
            else daily_minutes
          activity_type := ActivityType.learning }))
        ++ [{ day := dayName (cursor + days_needed)
              start_time := "18:00"
              duration_minutes := 60
              activity_type := ActivityType.coding_practice },
            { day := dayName (cursor + days_needed + 1)
              start_time := "18:00"
              duration_minutes := 30
              activity_type := ActivityType.viva }]
        ++ allocate_spec rest daily_hours (cursor + days_needed + 2)

/-! ### Replanner (`scheduler_agent.py`, `replan_after_failure`) -/

/-- `days_of_week.index(day)` (`scheduler_agent.py` 353); Python raises
`ValueError` when the label is absent, embedded as `none`. -/
def index_of_day : List String → String → Option Nat
  | [], _ => none
  | d :: rest, x => if d = x then some 0 else (index_of_day rest x).map (· + 1)

/-- Shifting one slot (`scheduler_agent.py` 351-366): a new slot whose day
label is advanced by `shift_days` modulo 7 and whose other fields are the
original's. -/
def shift_slot (shift_days : Nat) (slot : TimeSlot) : Option TimeSlot :=
  (index_of_day days_of_week slot.day).map (fun i =>
    { day := days_of_week.getD ((i + shift_days) % 7) ""
      start_time := slot.start_time
      duration_minutes := slot.duration_minutes
      activity_type := slot.activity_type })

/-- The calendar loop of `_insert_and_shift_calendar`: shift every slot,
failing on the first invalid day label as the Python loop does. -/
def map_option {α β : Type} (f : α → Option β) : List α → Option (List β)
  | [] => some []
  | a :: l =>
    match f a with
    | none => none
    | some b => (map_option f l).map (b :: ·)

/-- `_insert_and_shift_calendar` (`scheduler_agent.py` 328-368): the new slot
first, followed by every existing slot shifted by `shift_days`. -/
def insert_and_shift_calendar (calendar : List TimeSlot) (new_slot : TimeSlot)
    (shift_days : Nat) : Option (List TimeSlot) :=
  (map_option (shift_slot shift_days) calendar).map (fun shifted => new_slot :: shifted)

/-- The module mutation inside `replan_after_failure`'s search loop
(`scheduler_agent.py` 259-269): the first module whose id matches is marked
`failed` with `viva_passed := false`; `none` models the `ValueError` when no
module matches. -/
def mark_first_failed : List LearningModuleScheduler → String → Option (List LearningModuleScheduler)
  | [], _ => none
  | m :: rest, fid =>
    if m.id = fid then
      some ({ m with status := ModuleStatusScheduler.failed, viva_passed := false } :: rest)
    else
      (mark_first_failed rest fid).map (m :: ·)

/-- `replan_after_failure` (`scheduler_agent.py` 239-298), with `today` the
replan day index: mark the failed module, build a 120-minute remedial slot
anchored at tomorrow, and replace the calendar with the remedial slot
followed by every existing slot shifted by one day.  (The AI-generated
remedial-focus text of step 2 is discarded by the code and omitted here.) -/
def replan_after_failure (sched : UserSchedule) (failed_module_id : String)
    (today : Nat) : Option UserSchedule :=
  match mark_first_failed sched.modules failed_module_id with
  | none => none
  | some modules' =>
    let tomorrow := today + 1
    let remedial_slot : TimeSlot :=
      { day := dayName tomorrow
        start_time := "18:00"
        duration_minutes := 120
        activity_type := ActivityType.remedial }
    (insert_and_shift_calendar sched.calendar remedial_slot 1).map (fun cal' =>
      { sched with modules := modules', calendar := cal' })

/-- The day-label advance described by the replanning claim: the label's
index in the weekday table, plus `shift_days`, modulo 7. -/
def advance_day_label (d : String) (shift_days : Nat) : String :=
  days_of_week.getD (((index_of_day days_of_week d).getD 7 + shift_days) % 7) ""

/-! ### Score-bound lemmas -/

lemma interact_viva_step_score_bounds (s : VivaSessionState)
    (ui rt ff : String) (upd : Int) :
    0 ≤ (interact_viva_step s ui rt ff upd).current_score
      ∧ (interact_viva_step s ui rt ff upd).current_score ≤ 100 := by
  unfold interact_viva_step
  dsimp only
  split <;> constructor <;> simp

lemma run_viva_score_bounds (turns : List (String × String × String × Int))
    (s : VivaSessionState) (h0 : 0 ≤ s.current_score) (h1 : s.current_score ≤ 100) :
    0 ≤ (run_viva s turns).current_score ∧ (run_viva s turns).current_score ≤ 100 := by
  induction turns generalizing s with
  | nil => exact ⟨h0, h1⟩
  | cons turn rest ih =>
    obtain ⟨ui, rt, ff, upd⟩ := turn
    exact ih _ (interact_viva_step_score_bounds s ui rt ff upd).1
      (interact_viva_step_score_bounds s ui rt ff upd).2

/-- C5: after every update step of `interact_viva` the running score lies in
`[0, 100]` regardless of the oracle delta's magnitude; a fresh session starts
at 50, inside the interval; hence every session state reachable from a start
state by interaction steps has its score in `[0, 100]`. -/
theorem viva_score_invariant
    (s : VivaSessionState) (ui rt ff : String) (upd : Int)
    (mid mt q : String) (turns : List (String × String × String × Int)) :
    (0 ≤ (interact_viva_step s ui rt ff upd).current_score
      ∧ (interact_viva_step s ui rt ff upd).current_score ≤ 100)
    ∧ ((start_viva_session mid mt q).current_score = 50
      ∧ 0 ≤ (start_viva_session mid mt q).current_score
      ∧ (start_viva_session mid mt q).current_score ≤ 100)
    ∧ (0 ≤ (run_viva (start_viva_session mid mt q) turns).current_score
      ∧ (run_viva (start_viva_session mid mt q) turns).current_score ≤ 100) :=
  ⟨interact_viva_step_score_bounds s ui rt ff upd,
   ⟨rfl, by simp [start_viva_session], by simp [start_viva_session]⟩,
   run_viva_score_bounds turns _ (by simp [start_viva_session])
     (by simp [start_viva_session])⟩

/-- C6 counterexample: the session created by `start_viva` has
`question_count = 1`, not 0 as claimed — the first question is already
counted at creation. -/
theorem start_viva_question_count_not_zero :
    (start_viva_session "module_1" "Git Basics" "Hello! What is Git?").question_count ≠ 0 := by
  decide

/-- C6 (amended): the session created by `start_viva` has `status = "active"`,
`current_score = 50` and `question_count = 1` (the first oracle-obtained
question, already appended as the only transcript entry, is counted). -/
theorem start_viva_session_initial_state (mid mt q : String) :
    (start_viva_session mid mt q).status = "active"
    ∧ (start_viva_session mid mt q).current_score = 50
    ∧ (start_viva_session mid mt q).question_count = 1
    ∧ (start_viva_session mid mt q).transcript = [("interviewer", q)] :=
  ⟨rfl, rfl, rfl, rfl⟩

/-- C7 counterexample: in `/viva/interact`, a no-grade turn
(`score_update = -1`) still increments `question_count` (and even lowers the
running score by one), contradicting the claim that neither changes. -/
theorem interact_viva_increments_on_no_grade_turn :
    (interact_viva_step
        ⟨"module_1", "Git Basics", [("interviewer", "Q1?")], 50, "active", 1⟩
        "continue" "Alright. Next question?" "feedback" (-1)).question_count = 2
    ∧ (interact_viva_step
        ⟨"module_1", "Git Basics", [("interviewer", "Q1?")], 50, "active", 1⟩
        "continue" "Alright. Next question?" "feedback" (-1)).current_score = 49 := by
  constructor <;> rfl

/-- C7 (amended): in `/viva/chat` the question counter increments and the
per-turn score is recorded exactly when the oracle graded the turn
(`score_update >= 0`), a negative `score_update` leaving both unchanged;
but in `/viva/interact` the counter increments on every turn,
graded or not. -/
theorem question_count_gating
    (sess : ChatSession) (ut rt : String) (upd : Int)
    (s : VivaSessionState) (ui rt2 ff : String) (upd2 : Int) :
    ((viva_chat_step sess ut rt upd).1.question_count
        = sess.question_count + (if 0 ≤ upd then 1 else 0))
    ∧ ((viva_chat_step sess ut rt upd).1.scores
        = (if 0 ≤ upd then sess.scores ++ [upd] else sess.scores))
    ∧ ((interact_viva_step s ui rt2 ff upd2).question_count
        = s.question_count + 1) := by
  refine ⟨?_, ?_, ?_⟩
  · unfold viva_chat_step
    dsimp only
    split <;> simp
  · unfold viva_chat_step
    dsimp only
    split <;> simp_all
  · unfold interact_viva_step
    dsimp only
    split <;> rfl

lemma interact_endpoint_rejects_inactive
    (store : List (String × VivaSessionState)) (sid ui rt ff : String)
    (upd : Int) (s : VivaSessionState)
    (hlook : get_session store sid = some s)
    (hne : s.status ≠ "active") :
    (interact_viva_endpoint store sid ui rt ff upd).1 = store
    ∧ (interact_viva_endpoint store sid ui rt ff upd).2
        = Except.error (VivaError.alreadyConcluded s.status) := by
  unfold interact_viva_endpoint
  rw [hlook]
  simp [hne]

/-- C8: submitting a further interaction for a session whose status is
`passed` or `failed` fails with the already-concluded error, and the session
store — hence the stored transcript, score, count and status — is unchanged
by the rejected call. -/
theorem interact_viva_rejects_concluded
    (store : List (String × VivaSessionState)) (sid ui rt ff : String)
    (upd : Int) (s : VivaSessionState)
    (hlook : get_session store sid = some s)
    (hconc : s.status = "passed" ∨ s.status = "failed") :
    (interact_viva_endpoint store sid ui rt ff upd).1 = store
    ∧ (interact_viva_endpoint store sid ui rt ff upd).2
        = Except.error (VivaError.alreadyConcluded s.status) := by
  have hne : s.status ≠ "active" := by
    rcases hconc with h | h <;> simp [h]
  exact interact_endpoint_rejects_inactive store sid ui rt ff upd s hlook hne

/-- A concluded session, for the C8 witness. -/
def concludedSession : VivaSessionState :=
  ⟨"module_1", "Git", [("interviewer", "done")], 80, "passed", 5⟩

/-- Witness for C8 at a concrete store holding a concluded session. -/
theorem interact_viva_rejects_concluded_witness :
    (get_session [("s1", concludedSession)] "s1" = some concludedSession)
    ∧ (concludedSession.status = "passed" ∨ concludedSession.status = "failed")
    ∧ ((interact_viva_endpoint [("s1", concludedSession)] "s1" "hi" "reply" "fb" 3).1
        = [("s1", concludedSession)]
      ∧ (interact_viva_endpoint [("s1", concludedSession)] "s1" "hi" "reply" "fb" 3).2
        = Except.error (VivaError.alreadyConcluded concludedSession.status)) :=
  ⟨by decide, Or.inl (by decide),
   interact_viva_rejects_concluded [("s1", concludedSession)] "s1" "hi" "reply" "fb" 3
     concludedSession (by decide) (Or.inl (by decide))⟩

/-! ### Conclusion threshold (C4) -/

lemma complete_viva_matched_status (mods : List RoadmapModule) (t : String)
    (score : Int) (r : List RoadmapModule)
    (h : complete_viva_modules mods t score = some r) :
    mods.findIdx (fun m => m.title == t) < mods.length
    ∧ (r.getD (mods.findIdx (fun m => m.title == t)) default).status
        = (if 70 ≤ score then "completed" else "pending") := by
  induction mods generalizing r with
  | nil => simp [complete_viva_modules] at h
  | cons m rest ih =>
    unfold complete_viva_modules at h
    by_cases hm : m.title = t
    · have hf : (m :: rest).findIdx (fun x => x.title == t) = 0 := by
        simp [List.findIdx_cons, hm]
      rw [hf]
      rw [if_pos hm] at h
      by_cases hs : 70 ≤ score
      · rw [if_pos hs] at h
        cases rest with
        | nil =>
          simp only [Option.some.injEq] at h
          subst h
          simp [hs]
        | cons n rest2 =>
          simp only [Option.some.injEq] at h
          subst h
          simp [hs]
      · rw [if_neg hs] at h
        simp only [Option.some.injEq] at h
        subst h
        simp [hs]
    · have hmb : (m.title == t) = false := by simp [hm]
      have hf : (m :: rest).findIdx (fun x => x.title == t)
          = rest.findIdx (fun x => x.title == t) + 1 := by
        simp [List.findIdx_cons, hmb]
      rw [if_neg hm] at h
      cases hrec : complete_viva_modules rest t score with
      | none => rw [hrec] at h; exact absurd h (by simp)
      | some rest' =>
        rw [hrec] at h
        simp only [Option.some.injEq] at h
        subst h
        obtain ⟨hlt, hst⟩ := ih rest' hrec
        rw [hf]
        exact ⟨by simpa using Nat.succ_lt_succ hlt, by simpa using hst⟩

/-- C4: on an active session with at most four questions asked, an
interaction concludes the session exactly when the question count reaches
the threshold 5; the final score is the clamped running score, the session
becomes `passed` iff that score is at least 70 and `failed` otherwise; a
concluded state is terminal — any further interaction is rejected with the
store unchanged; and in the `complete_viva` unlock cascade the same
threshold 70 decides whether the selected module is marked `completed` or
`pending`. -/
theorem viva_concludes_at_five_threshold_70
    (s : VivaSessionState) (ui rt ff : String) (upd : Int)
    (hact : s.status = "active") (hq : s.question_count ≤ 4) :
    (((interact_viva_step s ui rt ff upd).status ≠ "active")
        ↔ s.question_count + 1 = 5)
    ∧ (s.question_count + 1 = 5 →
        ((interact_viva_step s ui rt ff upd).current_score
            = max 0 (min 100 (s.current_score + upd))
        ∧ ((interact_viva_step s ui rt ff upd).status = "passed"
            ↔ 70 ≤ (interact_viva_step s ui rt ff upd).current_score)
        ∧ ((interact_viva_step s ui rt ff upd).status = "failed"
            ↔ (interact_viva_step s ui rt ff upd).current_score < 70)))
    ∧ (∀ store sid ui2 rt2 ff2 upd2 s2,
        get_session store sid = some s2 →
        (s2.status = "passed" ∨ s2.status = "failed") →
        (interact_viva_endpoint store sid ui2 rt2 ff2 upd2).1 = store)
    ∧ (∀ mods t score r, complete_viva_modules mods t score = some r →
        mods.findIdx (fun m => m.title == t) < mods.length
        ∧ (r.getD (mods.findIdx (fun m => m.title == t)) default).status
            = (if 70 ≤ score then "completed" else "pending")) := by
  refine ⟨?_, ?_,
    fun store sid ui2 rt2 ff2 upd2 s2 hlook hconc =>
      (interact_endpoint_rejects_inactive store sid ui2 rt2 ff2 upd2 s2 hlook
        (by rcases hconc with h | h <;> simp [h])).1,
    fun mods t score r h => complete_viva_matched_status mods t score r h⟩
  · unfold interact_viva_step
    dsimp only
    split
    · next h5 =>
      dsimp only
      constructor
      · intro _
        omega
      · intro _
        split
        · decide
        · decide
    · next h5 =>
      dsimp only
      rw [hact]
      constructor
      · intro hcon
        exact absurd rfl hcon
      · intro hcon
        omega
  · intro h5
    unfold interact_viva_step
    dsimp only
    rw [if_pos (by omega : 5 ≤ s.question_count + 1)]
    dsimp only
    refine ⟨rfl, ?_, ?_⟩
    · by_cases hsc : 70 ≤ max 0 (min 100 (s.current_score + upd))
      · rw [if_pos hsc]
        simpa using hsc
      · rw [if_neg hsc]
        constructor
        · intro hcon
          exact absurd hcon (by decide)
        · intro hcon
          exact absurd hcon hsc
    · by_cases hsc : 70 ≤ max 0 (min 100 (s.current_score + upd))
      · rw [if_pos hsc]
        constructor
        · intro hcon
          exact absurd hcon (by decide)
        · intro hcon
          exact absurd hsc (by omega)
      · rw [if_neg hsc]
        constructor
        · intro _
          omega
        · intro _
          rfl

/-- An active session with four questions already counted, for the C4
witness. -/
def fourQuestionSession : VivaSessionState :=
  ⟨"module_1", "Git", [("interviewer", "Q?")], 72, "active", 4⟩

/-- Witness for C4 at a concrete session one turn from the threshold. -/
theorem viva_concludes_at_five_threshold_70_witness :
    (fourQuestionSession.status = "active" ∧ fourQuestionSession.question_count ≤ 4)
    ∧ (((interact_viva_step fourQuestionSession "ans" "reply" "fb" 1).status ≠ "active")
        ↔ fourQuestionSession.question_count + 1 = 5) :=
  ⟨⟨by decide, by decide⟩,
   (viva_concludes_at_five_threshold_70 fourQuestionSession "ans" "reply" "fb" 1
     (by decide) (by decide)).1⟩

/-! ### Unlock-count invariant of the cascade (C1) -/

lemma countActive_cons (m : RoadmapModule) (l : List RoadmapModule) :
    countActive (m :: l) = (if m.status = "active" then 1 else 0) + countActive l := by
  unfold countActive
  rw [List.countP_cons]
  by_cases h : m.status = "active"
  · simp [h, Nat.add_comm]
  · simp [h]

lemma countActive_eq_zero_of_all_not (l : List RoadmapModule)
    (h : l.all (fun x => x.status != "active") = true) : countActive l = 0 := by
  unfold countActive
  rw [List.countP_eq_zero]
  intro a ha
  have := List.all_eq_true.mp h a ha
  simpa using this

/-- C1 counterexample: a roadmap with exactly one `"active"` module on which
`complete_viva` (passing score, module title `"B"`, which is not the active
module) leaves two modules `"active"`. -/
theorem complete_viva_breaks_unlock_invariant :
    countActive [⟨"A", "active", none⟩, ⟨"B", "pending", none⟩, ⟨"C", "pending", none⟩] ≤ 1
    ∧ complete_viva_modules
        [⟨"A", "active", none⟩, ⟨"B", "pending", none⟩, ⟨"C", "pending", none⟩] "B" 70
      = some [⟨"A", "active", none⟩, ⟨"B", "completed", some 70⟩, ⟨"C", "active", none⟩]
    ∧ countActive
        [⟨"A", "active", none⟩, ⟨"B", "completed", some 70⟩, ⟨"C", "active", none⟩] = 2 := by
  refine ⟨by decide, by decide, by decide⟩

/-- C1 (amended): the unlock cascade leaves 0 or 1 modules `"active"`
provided every `"active"` module of the roadmap is the module the cascade
selects — the first module whose title matches (so in particular at most one
module is `"active"`); without that proviso the cascade can activate a
second module. -/
theorem complete_viva_preserves_unlock_invariant
    (mods : List RoadmapModule) (t : String) (score : Int) (r : List RoadmapModule)
    (hcount : countActive mods ≤ 1)
    (hfirst : only_first_match_active mods t = true)
    (h : complete_viva_modules mods t score = some r) :
    countActive r ≤ 1 := by
  induction mods generalizing r with
  | nil => simp [complete_viva_modules] at h
  | cons m rest ih =>
    unfold only_first_match_active at hfirst
    unfold complete_viva_modules at h
    by_cases hm : m.title = t
    · rw [if_pos hm] at hfirst h
      have hrest0 : countActive rest = 0 := countActive_eq_zero_of_all_not rest hfirst
      by_cases hs : 70 ≤ score
      · rw [if_pos hs] at h
        cases rest with
        | nil =>
          simp only [Option.some.injEq] at h
          subst h
          rw [countActive_cons]
          rw [if_neg (by decide : ¬("completed" = "active"))]
          simp [countActive]
        | cons n rest2 =>
          simp only [Option.some.injEq] at h
          subst h
          rw [countActive_cons, countActive_cons]
          rw [if_neg (by decide : ¬("completed" = "active"))]
          rw [if_pos (rfl : "active" = "active")]
          rw [countActive_cons] at hrest0
          omega
      · rw [if_neg hs] at h
        simp only [Option.some.injEq] at h
        subst h
        rw [countActive_cons]
        rw [if_neg (by decide : ¬("pending" = "active"))]
        omega
    · rw [if_neg hm] at h
      have hsplit := hfirst
      rw [if_neg hm, Bool.and_eq_true] at hsplit
      obtain ⟨hma, hrest⟩ := hsplit
      have hma' : m.status ≠ "active" := by simpa using hma
      cases hrec : complete_viva_modules rest t score with
      | none => rw [hrec] at h; exact absurd h (by simp)
      | some rest' =>
        rw [hrec] at h
        simp only [Option.some.injEq] at h
        subst h
        rw [countActive_cons, if_neg hma']
        have hcrest : countActive rest ≤ 1 := by
          rw [countActive_cons] at hcount
          omega
        simpa using ih rest' hcrest hrest hrec

/-- A roadmap whose only `"active"` module is the one being completed, for
the C1 witness. -/
def wellFormedRoadmap : List RoadmapModule :=
  [⟨"A", "active", none⟩, ⟨"B", "pending", none⟩]

/-- Witness for C1 on a roadmap whose active module is the completed one. -/
theorem complete_viva_preserves_unlock_invariant_witness :
    (countActive wellFormedRoadmap ≤ 1
      ∧ only_first_match_active wellFormedRoadmap "A" = true
      ∧ complete_viva_modules wellFormedRoadmap "A" 85
          = some [⟨"A", "completed", some 85⟩, ⟨"B", "active", none⟩])
    ∧ countActive [⟨"A", "completed", some 85⟩, ⟨"B", "active", none⟩] ≤ 1 :=
  ⟨⟨by decide, by decide, by decide⟩,
   complete_viva_preserves_unlock_invariant wellFormedRoadmap "A" 85
     [⟨"A", "completed", some 85⟩, ⟨"B", "active", none⟩]
     (by decide) (by decide) (by decide)⟩

/-! ### The replanner's mark-failed step (C9) -/

lemma mark_first_failed_spec (mods : List LearningModuleScheduler) (fid : String)
    (mods' : List LearningModuleScheduler)
    (h : mark_first_failed mods fid = some mods') :
    ∃ i, i < mods.length
      ∧ (mods.getD i default).id = fid
      ∧ mods' = mods.set i
          { mods.getD i default with
            status := ModuleStatusScheduler.failed, viva_passed := false } := by
  induction mods generalizing mods' with
  | nil => simp [mark_first_failed] at h
  | cons m rest ih =>
    unfold mark_first_failed at h
    by_cases hm : m.id = fid
    · rw [if_pos hm] at h
      simp only [Option.some.injEq] at h
      subst h
      exact ⟨0, by simp, by simpa using hm, by simp⟩
    · rw [if_neg hm] at h
      cases hrec : mark_first_failed rest fid with
      | none => rw [hrec] at h; exact absurd h (by simp)
      | some rest' =>
        rw [hrec] at h
        simp only [Option.map_some', Option.some.injEq] at h
        subst h
        obtain ⟨i, hlt, hid, hset⟩ := ih rest' hrec
        refine ⟨i + 1, by simpa using Nat.succ_lt_succ hlt, by simpa using hid, ?_⟩
        simp [hset]

lemma mark_first_failed_count (mods : List LearningModuleScheduler) (fid : String)
    (mods' : List LearningModuleScheduler)
    (h : mark_first_failed mods fid = some mods') :
    mods'.countP (fun m => m.status == ModuleStatusScheduler.unlocked)
      ≤ mods.countP (fun m => m.status == ModuleStatusScheduler.unlocked) := by
  induction mods generalizing mods' with
  | nil => simp [mark_first_failed] at h
  | cons m rest ih =>
    unfold mark_first_failed at h
    by_cases hm : m.id = fid
    · rw [if_pos hm] at h
      simp only [Option.some.injEq] at h
      subst h
      simp only [List.countP_cons]
      split <;> split <;> simp_all
    · rw [if_neg hm] at h
      cases hrec : mark_first_failed rest fid with
      | none => rw [hrec] at h; exact absurd h (by simp)
      | some rest' =>
        rw [hrec] at h
        simp only [Option.map_some', Option.some.injEq] at h
        subst h
        simp only [List.countP_cons]
        have := ih rest' hrec
        omega

/-- A schedule whose only module is already `completed`, for the C9
counterexample. -/
def completedModuleSchedule : UserSchedule :=
  { user_id := "u1"
    goal := "MLOps"
    start_date := 0
    daily_commitment_hours := 2
    preferred_language := "Python"
    modules := [⟨"m1", "Intro", [], 4, ModuleStatusScheduler.completed, true⟩]
    calendar := [] }

/-- C9 counterexample: `replan_after_failure` succeeds on — and marks failed —
a module whose status is `completed`, not `unlocked`: no unlocked
precondition is enforced, and the result records `viva_passed := false` but
no score (the scheduler module type carries none). -/
theorem replan_succeeds_on_non_unlocked_module :
    (completedModuleSchedule.modules.getD 0 default).status ≠ ModuleStatusScheduler.unlocked
    ∧ replan_after_failure completedModuleSchedule "m1" 0
      = some { completedModuleSchedule with
               modules := [⟨"m1", "Intro", [], 4, ModuleStatusScheduler.failed, false⟩]
               calendar := [⟨"Tuesday", "18:00", 120, ActivityType.remedial⟩] } := by
  constructor
  · decide
  · decide

/-- C9 (amended): the mark-failed step of `replan_after_failure` acts on the
first module whose id matches regardless of its current status — no
`unlocked` precondition is required — setting its status to `failed` and
`viva_passed` to `false`, recording no score, leaving every other module
unchanged, and unlocking no module (the count of `unlocked` modules does not
increase). -/
theorem replan_marks_failed_unconditionally
    (sched : UserSchedule) (fid : String) (today : Nat) (r : UserSchedule)
    (h : replan_after_failure sched fid today = some r) :
    ∃ i, i < sched.modules.length
      ∧ (sched.modules.getD i default).id = fid
      ∧ r.modules = sched.modules.set i
          { sched.modules.getD i default with
            status := ModuleStatusScheduler.failed, viva_passed := false }
      ∧ r.modules.countP (fun m => m.status == ModuleStatusScheduler.unlocked)
          ≤ sched.modules.countP (fun m => m.status == ModuleStatusScheduler.unlocked) := by
  unfold replan_after_failure at h
  cases hmf : mark_first_failed sched.modules fid with
  | none => rw [hmf] at h; exact absurd h (by simp)
  | some mods' =>
    rw [hmf] at h
    dsimp only at h
    cases hins : insert_and_shift_calendar sched.calendar
        { day := dayName (today + 1), start_time := "18:00",
          duration_minutes := 120, activity_type := ActivityType.remedial } 1 with
    | none => rw [hins] at h; exact absurd h (by simp)
    | some cal' =>
      rw [hins] at h
      simp only [Option.map_some', Option.some.injEq] at h
      subst h
      obtain ⟨i, hlt, hid, hset⟩ := mark_first_failed_spec sched.modules fid mods' hmf
      exact ⟨i, hlt, hid, by simpa using hset,
        by simpa using mark_first_failed_count sched.modules fid mods' hmf⟩

/-- A schedule with one unlocked module, for the C9 and C3 witnesses. -/
def unlockedModuleSchedule : UserSchedule :=
  { user_id := "u1"
    goal := "MLOps"
    start_date := 0
    daily_commitment_hours := 2
    preferred_language := "Python"
    modules := [⟨"m1", "Intro", [], 4, ModuleStatusScheduler.unlocked, false⟩]
    calendar := [⟨"Sunday", "18:00", 60, ActivityType.learning⟩] }

/-- The schedule produced by replanning `unlockedModuleSchedule` on day 5. -/
def replannedSchedule : UserSchedule :=
  { unlockedModuleSchedule with
    modules := [⟨"m1", "Intro", [], 4, ModuleStatusScheduler.failed, false⟩]
    calendar := [⟨"Sunday", "18:00", 120, ActivityType.remedial⟩,
                 ⟨"Monday", "18:00", 60, ActivityType.learning⟩] }

/-- Witness for C9 at a concrete schedule. -/
theorem replan_marks_failed_unconditionally_witness :
    replan_after_failure unlockedModuleSchedule "m1" 5 = some replannedSchedule
    ∧ ∃ i, i < unlockedModuleSchedule.modules.length
      ∧ (unlockedModuleSchedule.modules.getD i default).id = "m1"
      ∧ replannedSchedule.modules = unlockedModuleSchedule.modules.set i
          { unlockedModuleSchedule.modules.getD i default with
            status := ModuleStatusScheduler.failed, viva_passed := false }
      ∧ replannedSchedule.modules.countP
            (fun m => m.status == ModuleStatusScheduler.unlocked)
          ≤ unlockedModuleSchedule.modules.countP
            (fun m => m.status == ModuleStatusScheduler.unlocked) :=
  ⟨by decide,
   replan_marks_failed_unconditionally unlockedModuleSchedule "m1" 5
     replannedSchedule (by decide)⟩

/-! ### Replanner calendar shift (C3) -/

lemma index_of_day_isSome_of_mem {l : List String} {x : String} (h : x ∈ l) :
    ∃ i, index_of_day l x = some i := by
  induction l with
  | nil => simp at h
  | cons d rest ih =>
    by_cases hd : d = x
    · exact ⟨0, by simp [index_of_day, hd]⟩
    · rcases List.mem_cons.mp h with h1 | h1
      · exact absurd h1.symm hd
      · obtain ⟨i, hi⟩ := ih h1
        exact ⟨i + 1, by simp [index_of_day, hd, hi]⟩

lemma shift_slot_eq (sd : Nat) (slot : TimeSlot) (hmem : slot.day ∈ days_of_week) :
    shift_slot sd slot = some
      { day := advance_day_label slot.day sd
        start_time := slot.start_time
        duration_minutes := slot.duration_minutes
        activity_type := slot.activity_type } := by
  obtain ⟨i, hi⟩ := index_of_day_isSome_of_mem hmem
  unfold shift_slot advance_day_label
  rw [hi]
  simp

lemma map_option_shift (cal : List TimeSlot) (sd : Nat)
    (hvalid : ∀ s ∈ cal, s.day ∈ days_of_week) :
    map_option (shift_slot sd) cal = some (cal.map (fun slot =>
      { day := advance_day_label slot.day sd
        start_time := slot.start_time
        duration_minutes := slot.duration_minutes
        activity_type := slot.activity_type })) := by
  induction cal with
  | nil => rfl
  | cons s rest ih =>
    have h1 := shift_slot_eq sd s (hvalid s (List.mem_cons_self s rest))
    have h2 := ih (fun x hx => hvalid x (List.mem_cons_of_mem s hx))
    simp [map_option, h1, h2]

/-- C3: when replanning succeeds, the calendar is replaced in full by the
remedial slot (120 minutes, anchored at the day after the replan day)
followed by every existing slot in its original order as a new slot whose
day label is advanced by the default `shift_days = 1` modulo 7 and whose
`start_time`, `duration_minutes` and `activity_type` equal the original's;
under that shift a `"Sunday"` label becomes `"Monday"`. -/
theorem replan_calendar_shift
    (sched : UserSchedule) (fid : String) (today : Nat) (r : UserSchedule)
    (hvalid : ∀ s ∈ sched.calendar, s.day ∈ days_of_week)
    (h : replan_after_failure sched fid today = some r) :
    r.calendar =
      { day := dayName (today + 1), start_time := "18:00",
        duration_minutes := 120, activity_type := ActivityType.remedial }
      :: sched.calendar.map (fun slot =>
        { day := advance_day_label slot.day 1
          start_time := slot.start_time
          duration_minutes := slot.duration_minutes
          activity_type := slot.activity_type })
    ∧ advance_day_label "Sunday" 1 = "Monday" := by
  refine ⟨?_, by decide⟩
  unfold replan_after_failure at h
  cases hmf : mark_first_failed sched.modules fid with
  | none => rw [hmf] at h; exact absurd h (by simp)
  | some mods' =>
    rw [hmf] at h
    dsimp only at h
    unfold insert_and_shift_calendar at h
    rw [map_option_shift sched.calendar 1 hvalid] at h
    simp only [Option.map_some', Option.some.injEq] at h
    subst h
    rfl

/-- Witness for C3: replanning the concrete schedule whose calendar holds a
Sunday slot relabels it Monday behind the new remedial slot. -/
theorem replan_calendar_shift_witness :
    (∀ s ∈ unlockedModuleSchedule.calendar, s.day ∈ days_of_week)
    ∧ replan_after_failure unlockedModuleSchedule "m1" 5 = some replannedSchedule
    ∧ (replannedSchedule.calendar =
        { day := dayName (5 + 1), start_time := "18:00",
          duration_minutes := 120, activity_type := ActivityType.remedial }
        :: unlockedModuleSchedule.calendar.map (fun slot =>
          { day := advance_day_label slot.day 1
            start_time := slot.start_time
            duration_minutes := slot.duration_minutes
            activity_type := slot.activity_type })
      ∧ advance_day_label "Sunday" 1 = "Monday") :=
  ⟨by decide, by decide,
   replan_calendar_shift unlockedModuleSchedule "m1" 5 replannedSchedule
     (by decide) (by decide)⟩

/-! ### Chat cumulative score (C10) -/

/-- C10: after every `/viva/chat` turn the reported `cumulative_score` is the
floor of the arithmetic mean of the per-turn scores recorded for graded
turns so far (given that recorded scores are non-negative, as every recorded
score is); with no graded turn it is 0, not the 50 baseline, and a
skip/continue turn (negative `score_update`) itself reports a per-turn score
of 0. -/
theorem chat_cumulative_score_is_floor_mean
    (sess : ChatSession) (ut rt : String) (upd : Int)
    (hnn : ∀ x ∈ sess.scores, 0 ≤ x) :
    ((viva_chat_step sess ut rt upd).1.scores = [] →
        (viva_chat_step sess ut rt upd).2.cumulative_score = 0)
    ∧ ((viva_chat_step sess ut rt upd).1.scores ≠ [] →
        (viva_chat_step sess ut rt upd).2.cumulative_score
          = ⌊((viva_chat_step sess ut rt upd).1.scores.sum : ℚ)
              / ((viva_chat_step sess ut rt upd).1.scores.length : ℚ)⌋)
    ∧ (upd < 0 → (viva_chat_step sess ut rt upd).2.score = 0)
    ∧ (∀ x ∈ (viva_chat_step sess ut rt upd).1.scores, 0 ≤ x) := by
  have hnn' : ∀ x ∈ (viva_chat_step sess ut rt upd).1.scores, 0 ≤ x := by
    unfold viva_chat_step
    dsimp only
    split
    · next hpos =>
      intro x hx
      rcases List.mem_append.mp hx with hx1 | hx1
      · exact hnn x hx1
      · simp only [List.mem_singleton] at hx1
        subst hx1
        exact hpos
    · next hpos =>
      intro x hx
      exact hnn x hx
  refine ⟨?_, ?_, ?_, hnn'⟩
  · intro hemp
    unfold viva_chat_step at hemp ⊢
    dsimp only at hemp ⊢
    rw [if_neg (by simp [hemp])]
  · intro hne
    have hlen : 0 < (viva_chat_step sess ut rt upd).1.scores.length :=
      List.length_pos.mpr hne
    have hsum : 0 ≤ (viva_chat_step sess ut rt upd).1.scores.sum :=
      List.sum_nonneg hnn'
    have hfloor :
        ⌊(((viva_chat_step sess ut rt upd).1.scores.sum : ℤ) : ℚ)
            / (((viva_chat_step sess ut rt upd).1.scores.length : ℕ) : ℚ)⌋
          = (viva_chat_step sess ut rt upd).1.scores.sum
              / ((viva_chat_step sess ut rt upd).1.scores.length : ℤ) :=
      Rat.floor_intCast_div_natCast _ _
    have htdiv :
        ((viva_chat_step sess ut rt upd).1.scores.sum).tdiv
            ((viva_chat_step sess ut rt upd).1.scores.length : ℤ)
          = (viva_chat_step sess ut rt upd).1.scores.sum
              / ((viva_chat_step sess ut rt upd).1.scores.length : ℤ) :=
      Int.tdiv_eq_ediv hsum (by positivity)
    refine Eq.trans ?_ (htdiv.trans hfloor.symm)
    unfold viva_chat_step at hlen ⊢
    dsimp only at hlen ⊢
    rw [if_pos hlen]
  · intro hneg
    unfold viva_chat_step
    dsimp only
    rw [if_neg (by omega)]

/-- A chat session with two graded turns recorded, for the C10 witness. -/
def twoGradedChatSession : ChatSession :=
  { history := [("interviewer", "Q1?")], scores := [80, 61], question_count := 2 }

/-- Witness for C10: a graded turn on a concrete session yields the floor of
the mean of the recorded scores. -/
theorem chat_cumulative_score_is_floor_mean_witness :
    (∀ x ∈ twoGradedChatSession.scores, (0:Int) ≤ x)
    ∧ ((viva_chat_step twoGradedChatSession "ans" "Good. Next?" 70).1.scores ≠ [] →
        (viva_chat_step twoGradedChatSession "ans" "Good. Next?" 70).2.cumulative_score
          = ⌊(((viva_chat_step twoGradedChatSession "ans" "Good. Next?" 70).1.scores.sum : ℚ))
              / (((viva_chat_step twoGradedChatSession "ans" "Good. Next?" 70).1.scores.length : ℚ))⌋) :=
  ⟨by decide,
   (chat_cumulative_score_is_floor_mean twoGradedChatSession "ans" "Good. Next?" 70
     (by decide)).2.1⟩

/-! ### Calendar allocator refinement (C2) -/

lemma study_duration_eq (T daily k : Nat) (hd : 0 < daily)
    (hk : k < (T + daily - 1) / daily) :
    min daily (T - k * daily)
      = if k + 1 = (T + daily - 1) / daily
        then T - ((T + daily - 1) / daily - 1) * daily
        else daily := by
  set q := (T + daily - 1) / daily with hq
  have h1 : daily * q + (T + daily - 1) % daily = T + daily - 1 := Nat.div_add_mod _ _
  have h2 : (T + daily - 1) % daily < daily := Nat.mod_lt _ hd
  rw [Nat.mul_comm daily q] at h1
  have hC : (q - 1) * daily = q * daily - daily := Nat.sub_one_mul q daily
  have hq1 : daily ≤ q * daily := Nat.le_mul_of_pos_left daily (by omega)
  by_cases hke : k + 1 = q
  · rw [if_pos hke]
    have hBk : k * daily = (q - 1) * daily := by
      rw [← hke, Nat.add_sub_cancel]
    rw [Nat.min_def]
    split <;> omega
  · rw [if_neg hke]
    have hmono : (k + 1) * daily ≤ (q - 1) * daily :=
      Nat.mul_le_mul_right daily (by omega)
    have hsucc : (k + 1) * daily = k * daily + daily := Nat.succ_mul k daily
    rw [Nat.min_def]
    split <;> omega

lemma moduleStudySlots_eq_spec (T daily cursor : Nat) (hd : 0 < daily) :
    moduleStudySlots T daily cursor ((T + daily - 1) / daily)
      = (List.range ((T + daily - 1) / daily)).map (fun k =>
          { day := dayName (cursor + k)
            start_time := "18:00"
            duration_minutes :=
              if k + 1 = (T + daily - 1) / daily
              then T - ((T + daily - 1) / daily - 1) * daily
              else daily
            activity_type := ActivityType.learning }) := by
  unfold moduleStudySlots
  apply List.map_congr_left
  intro k hk
  rw [List.mem_range] at hk
  rw [study_duration_eq T daily k hd hk]

/-- C2: for every module list, positive daily commitment and start day, the
calendar produced by `_create_calendar_from_modules` is exactly the one the
specification describes: modules in list order, completed modules skipped,
`ceil(estimated_hours*60 / (daily_hours*60))` study slots per remaining
module — every slot `daily_minutes` long except the last, which carries the
remainder `total_minutes - (days_needed-1)*daily_minutes` — then one
60-minute practice slot the day after the last study day and one 30-minute
assessment slot the day after that, the cursor then advancing to the day
after the assessment slot. -/
theorem create_calendar_matches_allocate_spec (mods : List LearningModuleScheduler)
    (daily_hours start_day : Nat) (hd : 0 < daily_hours) :
    create_calendar_from_modules mods daily_hours start_day
      = allocate_spec mods daily_hours start_day := by
  induction mods generalizing start_day with
  | nil => rfl
  | cons m rest ih =>
    unfold create_calendar_from_modules allocate_spec
    by_cases hc : m.status = ModuleStatusScheduler.completed
    · rw [if_pos hc, if_pos hc]
      exact ih start_day
    · rw [if_neg hc, if_neg hc]
      dsimp only
      rw [moduleStudySlots_eq_spec (m.estimated_hours * 60) (daily_hours * 60)
        start_day (by omega)]
      rw [ih]

/-- A ten-hour unlocked module, for the C2 witness. -/
def tenHourModule : LearningModuleScheduler :=
  ⟨"m1", "Docker", [], 10, ModuleStatusScheduler.unlocked, false⟩

/-- Witness for C2: with `estimated_hours = 10` and
`daily_commitment_hours = 2` the allocator emits exactly 5 study slots plus
one practice and one assessment slot. -/
theorem create_calendar_matches_allocate_spec_witness :
    (0 < 2
      ∧ create_calendar_from_modules [tenHourModule] 2 0
          = allocate_spec [tenHourModule] 2 0)
    ∧ ((create_calendar_from_modules [tenHourModule] 2 0).countP
          (fun s => s.activity_type == ActivityType.learning) = 5
      ∧ (create_calendar_from_modules [tenHourModule] 2 0).countP
          (fun s => s.activity_type == ActivityType.coding_practice) = 1
      ∧ (create_calendar_from_modules [tenHourModule] 2 0).countP
          (fun s => s.activity_type == ActivityType.viva) = 1) :=
  ⟨⟨by decide, create_calendar_matches_allocate_spec [tenHourModule] 2 0 (by decide)⟩,
   by decide, by decide, by decide⟩

end GatHacks
